import Mathlib

/-!
Verification of the client-side scripts of the programming-school landing page.

The page ships three scripts:
* `js/main.js` (modelled in namespace `MainJs`): smooth-scroll navigation,
  form validation with a simulated submission, a button-state setter, and a
  scroll-reveal handler;
* `js/interactions.js` (namespace `Interactions`): `ButtonStateManager` and
  `FormSubmissionManager`;
* `js/animations.js` (namespace `Animations`): the Intersection-Observer
  reveal module.

Pure functions are translated directly; the event-driven parts are embedded
as explicit state machines whose events are the suspension points of the
scripts (submit events, promise resolutions of the simulated network call,
and timer callbacks).  Timer callbacks are modelled by a pending-timer list:
`setTimeout` appends a fresh identifier, `clearTimeout` erases it, and a
timer may fire only while its identifier is still pending — exactly the
host guarantee that a cleared timeout never runs.
-/

namespace LandingPage

/-- ASCII whitespace as matched by the scripts' `\s` character class and by
`String.prototype.trim`. -/
def isJsWs (c : Char) : Bool :=
  c == ' ' || c == '\t' || c == '\n' || c == '\r' || c == '\x0b' || c == '\x0c'

/-- `value.trim()`: drop leading and trailing whitespace. -/
def trimJs (cs : List Char) : List Char :=
  ((cs.dropWhile isJsWs).reverse.dropWhile isJsWs).reverse

/-- Character class `[a-zA-Z\s'-]` of the `name` rule's pattern. -/
def nameChar (c : Char) : Bool :=
  c.isAlpha || isJsWs c || c == '-' || c == '\''

/-- Character class `[\d\s()+-]` of the `phone` rule's pattern. -/
def phoneChar (c : Char) : Bool :=
  c.isDigit || isJsWs c || c == '(' || c == ')' || c == '+' || c == '-'

/-- `[^\s@]`: no whitespace and no `@`. -/
def noAtWs (cs : List Char) : Bool :=
  cs.all (fun c => !(c == '@') && !(isJsWs c))

/-- The domain part of `^[^\s@]+@[^\s@]+\.[^\s@]+$` must split as
`X.Y` with `X`, `Y` nonempty, i.e. contain a dot that is neither its first
nor its last character. -/
def hasInnerDot (cs : List Char) : Bool :=
  (List.range cs.length).any
    (fun i => decide (0 < i) && decide (i + 1 < cs.length) && (cs.getD i ' ' == '.'))

/-- The language of the email pattern `^[^\s@]+@[^\s@]+\.[^\s@]+$`:
a nonempty local part, a single `@`, and a domain part with an inner dot,
with no whitespace or further `@` anywhere. -/
def emailOk (cs : List Char) : Bool :=
  let localPart := cs.takeWhile (fun c => !(c == '@'))
  let rest := cs.dropWhile (fun c => !(c == '@'))
  match rest with
  | [] => false
  | _ :: domain =>
      !localPart.isEmpty && noAtWs localPart && noAtWs domain && hasInnerDot domain

namespace MainJs

/-- `CONFIG.ANIMATION_STAGGER` of `js/main.js`. -/
def ANIMATION_STAGGER : Nat := 100

/-- `CONFIG.FORM_SUCCESS_DURATION` of `js/main.js`. -/
def FORM_SUCCESS_DURATION : Nat := 3000

/-- `CONFIG.SCROLL_OFFSET` of `js/main.js`. -/
def SCROLL_OFFSET : Int := 80

/-- The three regex patterns appearing in `VALIDATION_RULES`. -/
inductive Pat
| nameP
| emailP
| phoneP
deriving DecidableEq

/-- `pattern.test(fieldValue)` for each of the three rule patterns. -/
def Pat.test : Pat → List Char → Bool
| .nameP, cs => !cs.isEmpty && cs.all nameChar
| .emailP, cs => emailOk cs
| .phoneP, cs => !cs.isEmpty && cs.all phoneChar

/-- One entry of the frozen `VALIDATION_RULES` table. -/
structure FieldRule where
  required : Bool
  minLength : Option Nat
  pattern : Option Pat
  message : String
deriving DecidableEq

/-- The frozen `VALIDATION_RULES` table of `js/main.js`, keyed by the
input's `name` attribute; `none` for fields without a rule. -/
def VALIDATION_RULES : String → Option FieldRule
| "name" =>
    some ⟨true, some 2, some .nameP,
      "Please enter a valid name (letters, spaces, hyphens, and apostrophes only)"⟩
| "email" => some ⟨true, none, some .emailP, "Please enter a valid email address"⟩
| "phone" => some ⟨false, none, some .phoneP, "Please enter a valid phone number"⟩
| "message" => some ⟨true, some 10, none, "Please enter a message (at least 10 characters)"⟩
| _ => none

/-- `if (rules.minLength && fieldValue.length < rules.minLength)`:
the min-length error message, when it applies. -/
def checkMinLength (rules : FieldRule) (fieldValue : List Char) : Option String :=
  match rules.minLength with
  | some n =>
      if fieldValue.length < n then
        some ("Must be at least " ++ toString n ++ " characters")
      else none
  | none => none

/-- `if (rules.pattern && !rules.pattern.test(fieldValue))`:
the pattern error message, when it applies. -/
def checkPattern (rules : FieldRule) (fieldValue : List Char) : Option String :=
  match rules.pattern with
  | some p => if p.test fieldValue then none else some rules.message
  | none => none

/-- `validateField` of `js/main.js`.  Returns the boolean result together
with the inline error that the call displays (`none` when the field error is
cleared instead).  `label` is `field.labels[0]?.textContent || 'This field'`. -/
def validateField (fieldName label value : String) : Bool × Option String :=
  let fieldValue := trimJs value.data
  match VALIDATION_RULES fieldName with
  | none => (true, none)
  | some rules =>
      if rules.required && fieldValue.isEmpty then
        (false, some (label ++ " is required"))
      else if fieldValue.isEmpty && !rules.required then
        (true, none)
      else
        match checkMinLength rules fieldValue with
        | some m => (false, some m)
        | none =>
            match checkPattern rules fieldValue with
            | some m => (false, some m)
            | none => (true, none)

/-- A form control: its `name` attribute, current value, associated label
text, and whether it carries the HTML `required` attribute.

The `required` attributes live in `index.html`, which is not part of the
script sources.  Modelled from the spec: the validation-rules table marks
`name`, `email`, `message` as required and `phone` as optional, so the
markup gives the `required` attribute to exactly the required fields. -/
structure Field where
  name : String
  value : String
  label : String
  requiredAttr : Bool
deriving DecidableEq

/-- `validateField` applied to a form control. -/
def validateFieldF (f : Field) : Bool × Option String :=
  validateField f.name f.label f.value

/-- `validateForm` of `js/main.js`: validate every control matched by
`input[required], textarea[required]`; the form is valid when all pass. -/
def validateForm (form : List Field) : Bool :=
  (form.filter (·.requiredAttr)).all (fun f => (validateFieldF f).1)

/-- The inline errors displayed by the `validateField` calls made from
`validateForm` during a submit. -/
def submitErrors (form : List Field) : List (String × String) :=
  (form.filter (·.requiredAttr)).filterMap
    (fun f => ((validateFieldF f).2).map (fun m => (f.name, m)))

/-- The synchronous gate of `handleFormSubmit`: after `preventDefault` and
`clearAllErrors`, run `validateForm`; the simulated call starts exactly when
it succeeds.  Returns (call started, inline errors displayed). -/
def handleFormSubmitGate (form : List Field) : Bool × List (String × String) :=
  if validateForm form then (true, []) else (false, submitErrors form)

/-- The button-state classes handled by `setButtonState` of `js/main.js`
(`'default'` is every value other than the three state classes). -/
inductive MBtn
| default
| loading
| success
| error
deriving DecidableEq

/-- The submission machine of `js/main.js` (`handleFormSubmit`,
`setButtonState`, `simulateFormSubmission`): button state, its `disabled`
flag, the number of in-flight simulated calls, the identifiers of scheduled
reset timers (never cancelled by this script), and a counter of simulated
calls started. -/
structure MSt where
  btn : MBtn
  btnDisabled : Bool
  inFlight : Nat
  pendingTimers : List Nat
  nextT : Nat
  calls : Nat
  fields : List Field
deriving DecidableEq

/-- `setButtonState` of `js/main.js`: strip the state classes and re-enable,
then apply the state (loading and success disable the button; error and
default leave it enabled). -/
def setButtonState (s : MSt) (st : MBtn) : MSt :=
  let s := { s with btn := st, btnDisabled := false }
  match st with
  | .loading => { s with btnDisabled := true }
  | .success => { s with btnDisabled := true }
  | .error => s
  | .default => s

/-- Events of the `js/main.js` submission machine: a form `submit` event,
resolution of an in-flight simulated call (success or failure), and the
firing of a still-pending reset timer. -/
inductive MEv
| submit
| resolveOk
| resolveFail
| fireTimer (id : Nat)
deriving DecidableEq

/-- One event of the `js/main.js` submission machine.

* `submit` — `handleFormSubmit`: clear errors, `validateForm`; when valid,
  `setButtonState('loading')` and start a simulated call.  There is no
  re-entry guard in this script.
* `resolveOk` / `resolveFail` — the `await simulateFormSubmission` resumes:
  `setButtonState('success'|'error')` and schedule a reset-to-default timer
  (`CONFIG.FORM_SUCCESS_DURATION`); nothing cancels it later.
* `fireTimer id` — a still-scheduled timer runs `setButtonState('default')`
  (the success timer also resets the form, which no claim tracks). -/
def mstep (s : MSt) : MEv → MSt
| .submit =>
    if validateForm s.fields then
      let s := setButtonState s .loading
      { s with inFlight := s.inFlight + 1, calls := s.calls + 1 }
    else s
| .resolveOk =>
    if s.inFlight > 0 then
      let s := setButtonState s .success
      { s with inFlight := s.inFlight - 1,
               pendingTimers := s.pendingTimers ++ [s.nextT], nextT := s.nextT + 1 }
    else s
| .resolveFail =>
    if s.inFlight > 0 then
      let s := setButtonState s .error
      { s with inFlight := s.inFlight - 1,
               pendingTimers := s.pendingTimers ++ [s.nextT], nextT := s.nextT + 1 }
    else s
| .fireTimer id =>
    if id ∈ s.pendingTimers then
      let s := { s with pendingTimers := s.pendingTimers.erase id }
      setButtonState s .default
    else s

/-- Initial state of the `js/main.js` submission machine for a given form. -/
def minit (fields : List Field) : MSt :=
  ⟨.default, false, 0, [], 0, 0, fields⟩

/-- Run the `js/main.js` submission machine on a list of events. -/
def mrun (fields : List Field) (es : List MEv) : MSt :=
  es.foldl mstep (minit fields)

/-- Observable outcome of `handleSmoothScroll`: whether default navigation
was prevented, the scroll position requested (if any), the fragment pushed
to the URL (if any), the element focused (if any), and whether the
missing-target warning was logged. -/
structure ScrollResult where
  prevented : Bool
  scrolledTo : Option Int
  urlPushed : Option String
  focused : Option String
  warnedMissing : Bool
deriving DecidableEq

/-- `href.startsWith('#')`: the first character is `#`. -/
def startsWithHash (h : String) : Bool :=
  match h.data with
  | [] => false
  | c :: _ => c == '#'

/-- `href.substring(1)`: everything after the leading `#`. -/
def fragmentOf (h : String) : String :=
  String.mk (h.data.drop 1)

/-- `handleSmoothScroll` of `js/main.js`.  `doc` lists the document's
element ids with their page-relative top positions
(`getBoundingClientRect().top + window.pageYOffset`); `href` is the link's
`href` attribute (`none` when absent, which is falsy like `''`). -/
def handleSmoothScroll (doc : List (String × Int)) (href : Option String) : ScrollResult :=
  match href with
  | none => ⟨false, none, none, none, false⟩
  | some h =>
      if !startsWithHash h then ⟨false, none, none, none, false⟩
      else
        let targetId := fragmentOf h
        match doc.find? (fun p => p.1 == targetId) with
        | none => ⟨true, none, none, none, true⟩
        | some p => ⟨true, some (p.2 - SCROLL_OFFSET), some h, some targetId, false⟩

/-- State of the `js/main.js` scroll-reveal machine (`initScrollAnimations`
and its `handleIntersection`): which elements were given the hidden initial
style, per-element stagger delays, the observed set, the revealed set
(`opacity 1`), the scheduled reveal timers `(fire time, element)`, and the
current time. -/
structure MAnimSt where
  hidden : List Nat
  delays : List (Nat × Nat)
  observed : List Nat
  revealed : List Nat
  timers : List (Nat × Nat)
  now : Nat
deriving DecidableEq

/-- `shouldDisableAnimations` of both scripts: the page-level
`data-no-animations` marker or `prefers-reduced-motion: reduce`. -/
def shouldDisableAnimations (noAnimAttr reducedMotion : Bool) : Bool :=
  noAnimAttr || reducedMotion

/-- `initScrollAnimations` of `js/main.js` over a group of `n` matched
elements (identified by their index): when animations are disabled it
returns immediately; otherwise every element is hidden, given the stagger
delay `index * ANIMATION_STAGGER`, and observed. -/
def minitScroll (noAnimAttr reducedMotion : Bool) (n : Nat) : MAnimSt :=
  if shouldDisableAnimations noAnimAttr reducedMotion then ⟨[], [], [], [], [], 0⟩
  else
    ⟨List.range n, (List.range n).map (fun i => (i, i * ANIMATION_STAGGER)),
     List.range n, [], [], 0⟩

/-- Events of the reveal machines: an intersection notification for an
observed element at a time, and the firing of a scheduled reveal timer no
earlier than its requested fire time. -/
inductive AEv
| notify (t : Nat) (e : Nat) (isIntersecting : Bool)
| fire (t : Nat) (e : Nat)
deriving DecidableEq

/-- Stagger delay stored on an element (`data-animation-delay`, `'0'` when
absent). -/
def delayOf (delays : List (Nat × Nat)) (e : Nat) : Nat :=
  ((delays.find? (fun p => p.1 == e)).map (·.2)).getD 0

/-- One event of the `js/main.js` reveal machine.

* `notify`: the observer reports `isIntersecting` for an observed element;
  `handleIntersection` schedules the reveal after the element's stagger
  delay (there is no already-animated check in this script).
* `fire`: a scheduled reveal timer runs — the element's styles flip to
  visible.  The subsequent `entry.target.observer?.unobserve?.(element)`
  reads an undefined `observer` property, so the optional-chained call does
  nothing and the element stays observed. -/
def mastep (s : MAnimSt) : AEv → MAnimSt
| .notify t e inter =>
    if t < s.now then s
    else
      if inter && s.observed.contains e then
        { s with now := t, timers := s.timers ++ [(t + delayOf s.delays e, e)] }
      else { s with now := t }
| .fire t e =>
    if t < s.now then s
    else
      match s.timers.find? (fun p => p.2 == e && decide (p.1 ≤ t)) with
      | some p =>
          { s with now := t,
                   timers := s.timers.erase p,
                   hidden := s.hidden.erase e,
                   revealed := if s.revealed.contains e then s.revealed else s.revealed ++ [e] }
      | none => { s with now := t }

/-- Run the `js/main.js` reveal machine on a list of events. -/
def marun (noAnimAttr reducedMotion : Bool) (n : Nat) (es : List AEv) : MAnimSt :=
  es.foldl mastep (minitScroll noAnimAttr reducedMotion n)

end MainJs

namespace Interactions

/-- `BUTTON_STATES` of `js/interactions.js`. -/
inductive BState
| idle
| loading
| success
| error
deriving DecidableEq

/-- The CSS class added for each button state. -/
def BState.cls : BState → String
| .idle => "idle"
| .loading => "loading"
| .success => "success"
| .error => "error"

/-- `CONFIG.SUCCESS_DISPLAY_DURATION` of `js/interactions.js`. -/
def SUCCESS_DISPLAY_DURATION : Nat := 3000

/-- `CONFIG.ERROR_DISPLAY_DURATION` of `js/interactions.js`. -/
def ERROR_DISPLAY_DURATION : Nat := 3000

/-- The DOM state of the submit button that `ButtonStateManager` mutates. -/
structure Button where
  innerHTML : String
  disabled : Bool
  ariaBusy : Bool
  ariaLive : String
  classes : List String
  dataOriginalContent : Option String
deriving DecidableEq

/-- The loading content written by `setLoadingState`. -/
def loadingContent (text : String) : String :=
  "<span class=\"btn-content\"><span class=\"btn-spinner\" aria-hidden=\"true\"></span><span class=\"btn-text\">"
    ++ text ++ "</span></span>"

/-- The success content written by `setSuccessState`. -/
def successContent (text : String) : String :=
  "<span class=\"btn-content\"><span class=\"btn-icon btn-icon-success\" aria-hidden=\"true\">✓</span><span class=\"btn-text\">"
    ++ text ++ "</span></span>"

/-- The error content written by `setErrorState`. -/
def errorContent (text : String) : String :=
  "<span class=\"btn-content\"><span class=\"btn-icon btn-icon-error\" aria-hidden=\"true\">✕</span><span class=\"btn-text\">"
    ++ text ++ "</span></span>"

/-- The pending `setTimeout` callbacks of the host: identifiers of timers
that are scheduled and not yet fired or cleared, plus a fresh-id counter. -/
structure Timers where
  pending : List Nat
  nextId : Nat
deriving DecidableEq

/-- The mutable fields of a `ButtonStateManager` instance. -/
structure BSM where
  button : Button
  currentState : BState
  originalContent : String
  stateTimeout : Option Nat
deriving DecidableEq

/-- The `clearTimeout(this.stateTimeout)` prologue of `setState`. -/
def clearPendingTimeout (m : BSM) (tm : Timers) : BSM × Timers :=
  match m.stateTimeout with
  | some id => ({ m with stateTimeout := none }, { tm with pending := tm.pending.erase id })
  | none => (m, tm)

/-- `Object.values(BUTTON_STATES).forEach(s => classList.remove(s))`. -/
def removeStateClasses (b : Button) : Button :=
  { b with classes := ((((b.classes.erase "idle").erase "loading").erase "success").erase "error") }

/-- `classList.add`. -/
def addClass (b : Button) (c : String) : Button :=
  { b with classes := b.classes ++ [c] }

/-- `setIdleState`: enable, `aria-busy=false`, `aria-live=off`, restore
`data-original-content` (falling back to the captured original content). -/
def setIdleState (m : BSM) : BSM :=
  { m with button :=
      { m.button with
          disabled := false, ariaBusy := false, ariaLive := "off",
          innerHTML := m.button.dataOriginalContent.getD m.originalContent } }

/-- `setLoadingState`: disable, `aria-busy=true`, spinner content. -/
def setLoadingState (m : BSM) : BSM :=
  { m with button :=
      { m.button with
          disabled := true, ariaBusy := true, ariaLive := "polite",
          innerHTML := loadingContent "Sending..." } }

/-- `setSuccessState`: disable, checkmark content, and schedule the
auto-reset-to-idle timer, remembered in `this.stateTimeout`. -/
def setSuccessState (m : BSM) (tm : Timers) : BSM × Timers :=
  ({ m with
      button :=
        { m.button with
            disabled := true, ariaBusy := false, ariaLive := "polite",
            innerHTML := successContent "Message Sent!" },
      stateTimeout := some tm.nextId },
   { pending := tm.pending ++ [tm.nextId], nextId := tm.nextId + 1 })

/-- `setErrorState`: re-enable (retry affordance), error content, and
schedule the auto-reset-to-idle timer, remembered in `this.stateTimeout`. -/
def setErrorState (m : BSM) (tm : Timers) : BSM × Timers :=
  ({ m with
      button :=
        { m.button with
            disabled := false, ariaBusy := false, ariaLive := "assertive",
            innerHTML := errorContent "Failed - Try Again" },
      stateTimeout := some tm.nextId },
   { pending := tm.pending ++ [tm.nextId], nextId := tm.nextId + 1 })

/-- `ButtonStateManager.setState`: clear any pending state timer, strip the
state classes, record and add the new state class, then apply the
state-specific changes. -/
def setState (m : BSM) (tm : Timers) (s : BState) : BSM × Timers :=
  let p := clearPendingTimeout m tm
  let m := { p.1 with button := addClass (removeStateClasses p.1.button) s.cls,
                      currentState := s }
  match s with
  | .idle => (setIdleState m, p.2)
  | .loading => (setLoadingState m, p.2)
  | .success => setSuccessState m p.2
  | .error => setErrorState m p.2

/-- The `ButtonStateManager` constructor plus its `init()`: capture the
original content, store it in `data-original-content` when absent, add the
`btn-morphing` class, and `setState(IDLE)`. -/
def mkManager (b : Button) : BSM × Timers :=
  let orig := b.innerHTML
  let b := if b.dataOriginalContent.isSome then b
           else { b with dataOriginalContent := some orig }
  let b := addClass b "btn-morphing"
  setState ⟨b, .idle, orig, none⟩ ⟨[], 0⟩ .idle

/-- `ButtonStateManager.isLoading`. -/
def isLoading (m : BSM) : Bool :=
  m.currentState == .loading

/-- The joint state of `FormSubmissionManager` and its `ButtonStateManager`:
the manager, the host's pending timers, the `isSubmitting` flag, whether a
simulated call is in flight, and a counter of simulated calls started. -/
structure FSM where
  mgr : BSM
  timers : Timers
  isSubmitting : Bool
  inFlight : Bool
  calls : Nat
deriving DecidableEq

/-- Events of the `js/interactions.js` machine: a form submit event, the
resolution of the in-flight simulated call, and the firing of a
still-pending state timer. -/
inductive Ev
| submit
| resolveOk
| resolveFail
| fireTimer (id : Nat)
deriving DecidableEq

/-- One event of the `js/interactions.js` machine.

* `submit` — `FormSubmissionManager.handleSubmit`: after `preventDefault`,
  return immediately when `isSubmitting || buttonManager.isLoading()`;
  otherwise set `isSubmitting`, enter the loading state, and start the
  simulated call.
* `resolveOk` / `resolveFail` — the awaited call settles (after the
  minimum-duration delay): `handleSuccess` / `handleError` sets the
  success / error state (each schedules its auto-reset timer inside
  `setState`), and the `finally` clears `isSubmitting`.  The success-path
  form-reset timer and the error-banner removal timer touch neither the
  button nor the machine and are not tracked.
* `fireTimer id` — a still-pending timer runs its callback
  `this.setState(BUTTON_STATES.IDLE)`. -/
def step (s : FSM) : Ev → FSM
| .submit =>
    if s.isSubmitting || isLoading s.mgr then s
    else
      let p := setState s.mgr s.timers .loading
      { s with mgr := p.1, timers := p.2, isSubmitting := true,
               inFlight := true, calls := s.calls + 1 }
| .resolveOk =>
    if s.inFlight then
      let p := setState s.mgr s.timers .success
      { s with mgr := p.1, timers := p.2, isSubmitting := false, inFlight := false }
    else s
| .resolveFail =>
    if s.inFlight then
      let p := setState s.mgr s.timers .error
      { s with mgr := p.1, timers := p.2, isSubmitting := false, inFlight := false }
    else s
| .fireTimer id =>
    if id ∈ s.timers.pending then
      let tm := { s.timers with pending := s.timers.pending.erase id }
      let p := setState s.mgr tm .idle
      { s with mgr := p.1, timers := p.2 }
    else s

/-- The machine as set up by `init()` of `js/interactions.js` for a given
submit button. -/
def initFSM (b : Button) : FSM :=
  let p := mkManager b
  { mgr := p.1, timers := p.2, isSubmitting := false, inFlight := false, calls := 0 }

/-- Run the `js/interactions.js` machine on a list of events. -/
def run (b : Button) (es : List Ev) : FSM :=
  es.foldl step (initFSM b)

end Interactions

namespace Animations

/-- `CONFIG.STAGGER_DELAY` of `js/animations.js`. -/
def STAGGER_DELAY : Nat := 150

/-- State of the `js/animations.js` reveal machine for one element group:
which elements were given a reveal (hidden initial) class, their stagger
delays, the observed set of the group's observer, the `animatedElements`
WeakSet, the set carrying the `active` (revealed) class, the scheduled
reveal timers `(fire time, element)`, and the current time. -/
structure AnimSt where
  prepared : List Nat
  delays : List (Nat × Nat)
  observed : List Nat
  marked : List Nat
  revealed : List Nat
  timers : List (Nat × Nat)
  now : Nat
deriving DecidableEq

/-- `init` of `js/animations.js`, restricted to one group of `n` matched
elements (identified by group index): when `shouldDisableAnimations()` it
returns before touching any element; otherwise `prepareElements` gives each
element its reveal class and the stagger delay `index * STAGGER_DELAY`, and
the group's observer observes each element. -/
def initAnim (noAnimAttr reducedMotion : Bool) (n : Nat) : AnimSt :=
  if MainJs.shouldDisableAnimations noAnimAttr reducedMotion then
    ⟨[], [], [], [], [], [], 0⟩
  else
    ⟨List.range n, (List.range n).map (fun i => (i, i * STAGGER_DELAY)),
     List.range n, [], [], [], 0⟩

/-- One event of the `js/animations.js` reveal machine.

* `notify`: the observer reports an entry for an observed element;
  `handleIntersection` acts only when `isIntersecting && !isAnimated`, and
  then schedules the reveal after the element's stagger delay.
* `fire`: a scheduled reveal timer runs: `animateElement` adds the `active`
  class, `markAsAnimated` adds the element to the WeakSet, and
  `observer.unobserve(element)` removes it from the observed set. -/
def astep (s : AnimSt) : MainJs.AEv → AnimSt
| .notify t e inter =>
    if t < s.now then s
    else
      if inter && s.observed.contains e && !s.marked.contains e then
        { s with now := t,
                 timers := s.timers ++ [(t + MainJs.delayOf s.delays e, e)] }
      else { s with now := t }
| .fire t e =>
    if t < s.now then s
    else
      match s.timers.find? (fun p => p.2 == e && decide (p.1 ≤ t)) with
      | some p =>
          { s with now := t,
                   timers := s.timers.erase p,
                   revealed := if s.revealed.contains e then s.revealed else s.revealed ++ [e],
                   marked := if s.marked.contains e then s.marked else s.marked ++ [e],
                   observed := s.observed.erase e }
      | none => { s with now := t }

/-- Run the `js/animations.js` reveal machine on a list of events. -/
def arun (noAnimAttr reducedMotion : Bool) (n : Nat) (es : List MainJs.AEv) : AnimSt :=
  es.foldl astep (initAnim noAnimAttr reducedMotion n)

end Animations

/-- The contact form's rule-bearing controls with given values.  Modelled
from the spec: the markup marks `name`, `email`, `message` with the
`required` attribute and leaves `phone` optional, mirroring the
validation-rules table. -/
def contactForm (nv ev pv mv : String) : List MainJs.Field :=
  [⟨"name", nv, "Name", true⟩,
   ⟨"email", ev, "Email", true⟩,
   ⟨"phone", pv, "Phone", false⟩,
   ⟨"message", mv, "Message", true⟩]

/-- A contact form whose required fields are all valid and whose optional
phone field violates the phone pattern. -/
def phoneBadForm : List MainJs.Field :=
  contactForm "Jane Doe" "jane@example.com" "abc?def" "I would like to join the school."

/-- A contact form whose fields are all valid. -/
def validForm : List MainJs.Field :=
  contactForm "Jane Doe" "jane@example.com" "+1 (555) 123-4567" "I would like to join the school."

/-- A contact form whose required `name` field is too short. -/
def badNameForm : List MainJs.Field :=
  contactForm "A" "jane@example.com" "" "I would like to join the school."

/-- The submit button as it appears in the markup before the manager is
constructed. -/
def exButton : Interactions.Button :=
  { innerHTML := "Send Message", disabled := false, ariaBusy := false,
    ariaLive := "off", classes := ["btn", "btn-primary"], dataOriginalContent := none }

/-- A reveal state with nothing prepared, observed, revealed or scheduled. -/
def Animations.Untouched (s : Animations.AnimSt) : Prop :=
  s.prepared = [] ∧ s.observed = [] ∧ s.revealed = [] ∧ s.timers = []

/-- A reveal state of the `js/main.js` machine with nothing hidden,
observed, revealed or scheduled. -/
def MainJs.MUntouched (s : MainJs.MAnimSt) : Prop :=
  s.hidden = [] ∧ s.observed = [] ∧ s.revealed = [] ∧ s.timers = []

/-- The machine invariant of the `js/interactions.js` machine: the
`isSubmitting` flag and the in-flight simulated call coincide with the
loading state, and the pending-timer list holds exactly the timer recorded
in `stateTimeout` — which exists only while the success or error state is
displayed. -/
def Interactions.Inv (s : Interactions.FSM) : Prop :=
  s.isSubmitting = Interactions.isLoading s.mgr ∧
  s.inFlight = Interactions.isLoading s.mgr ∧
  (match s.mgr.stateTimeout with
   | none => s.timers.pending = []
   | some id =>
       s.timers.pending = [id] ∧ id < s.timers.nextId ∧
       (s.mgr.currentState = .success ∨ s.mgr.currentState = .error))

/-- The transition diagram claimed by the spec for the button state:
`idle --submit--> loading --resolve--> success | error --timeout--> idle`
(plus stuttering). -/
def Interactions.specEdge (s t : Interactions.BState) : Bool :=
  s == t ||
  (s == .idle && t == .loading) ||
  (s == .loading && (t == .success || t == .error)) ||
  ((s == .success || s == .error) && t == .idle)

/-- The transition diagram the code actually implements: the spec's diagram
plus the retry edges `success --submit--> loading` and
`error --submit--> loading`. -/
def Interactions.codeEdge (s t : Interactions.BState) : Bool :=
  Interactions.specEdge s t || ((s == .success || s == .error) && t == .loading)

/-- Construct the button manager on `b`, set state `st`, then set state
idle again (claim C10's round trip). -/
def Interactions.afterRoundTrip (b : Interactions.Button) (st : Interactions.BState) :
    Interactions.BSM :=
  let p0 := Interactions.mkManager b
  let p1 := Interactions.setState p0.1 p0.2 st
  (Interactions.setState p1.1 p1.2 .idle).1

/-! ## Lemmas about trimming -/

theorem trimJs_eq_rdropWhile (cs : List Char) :
    trimJs cs = List.rdropWhile isJsWs (cs.dropWhile isJsWs) := rfl

theorem dropWhile_trimJs (cs : List Char) :
    (trimJs cs).dropWhile isJsWs = trimJs cs := by
  obtain ⟨t, ht⟩ := List.rdropWhile_prefix isJsWs (cs.dropWhile isJsWs)
  rw [trimJs_eq_rdropWhile]
  cases hu : List.rdropWhile isJsWs (cs.dropWhile isJsWs) with
  | nil => simp
  | cons a u =>
    rw [hu] at ht
    have hd : cs.dropWhile isJsWs = a :: (u ++ t) := by
      rw [← ht]; rfl
    have hhead : (cs.dropWhile isJsWs).head? = some a := by rw [hd]; rfl
    rw [← List.find?_not_eq_head?_dropWhile] at hhead
    have ha := List.find?_some hhead
    simp only [Bool.not_eq_true'] at ha
    rw [List.dropWhile_cons]
    simp [ha]

/-- Trimming is idempotent. -/
theorem trimJs_idem (cs : List Char) : trimJs (trimJs cs) = trimJs cs := by
  conv_lhs => rw [trimJs_eq_rdropWhile (trimJs cs)]
  rw [dropWhile_trimJs, trimJs_eq_rdropWhile, List.rdropWhile_idempotent]

/-- A whitespace-only string trims to the empty string. -/
theorem trimJs_all_ws (cs : List Char) (h : cs.all isJsWs = true) : trimJs cs = [] := by
  rw [trimJs_eq_rdropWhile]
  have hd : cs.dropWhile isJsWs = [] := by
    rw [List.dropWhile_eq_nil_iff]
    exact fun x hx => by simpa using List.all_eq_true.mp h x hx
  rw [hd]
  simp

/-- `validateField` only ever looks at the trimmed value. -/
theorem validateField_trim (n l v : String) :
    MainJs.validateField n l (String.mk (trimJs v.data)) = MainJs.validateField n l v := by
  show MainJs.validateField n l ⟨trimJs v.data⟩ = MainJs.validateField n l v
  unfold MainJs.validateField
  rw [show (String.mk (trimJs v.data)).data = trimJs v.data from rfl, trimJs_idem]

/-- On a whitespace-only value, a rule-bearing field fails exactly when its
rule is `required`. -/
theorem validateField_ws_only (n l v : String) (r : MainJs.FieldRule)
    (hr : MainJs.VALIDATION_RULES n = some r) (hws : v.data.all isJsWs = true) :
    MainJs.validateField n l v =
      if r.required then (false, some (l ++ " is required")) else (true, none) := by
  unfold MainJs.validateField
  rw [hr, trimJs_all_ws v.data hws]
  cases hreq : r.required <;> simp [hreq]

/-! ## Claim theorems -/

/-- Claim C9: field validation always operates on the trimmed field value —
validating a value gives the same result as validating its trimmed form; a
whitespace-only value is treated as empty, failing the required check for
required rules and passing for optional ones (so leading/trailing
whitespace never counts toward a rule's minimum length). -/
theorem c9_trimmed_validation :
    (∀ n l v : String,
        MainJs.validateField n l v = MainJs.validateField n l (String.mk (trimJs v.data))) ∧
    (∀ (n l v : String) (r : MainJs.FieldRule),
        MainJs.VALIDATION_RULES n = some r → v.data.all isJsWs = true →
        MainJs.validateField n l v =
          if r.required then (false, some (l ++ " is required")) else (true, none)) :=
  ⟨fun n l v => (validateField_trim n l v).symm, validateField_ws_only⟩

/-- Witness for C9 at concrete inputs: `" Jane Doe "` validates like its
trimmed form; a whitespace-only `name` fails as required while a
whitespace-only `phone` passes. -/
theorem c9_trimmed_validation_witness :
    MainJs.validateField "name" "Name" " Jane Doe " =
      MainJs.validateField "name" "Name" (String.mk (trimJs " Jane Doe ".data)) ∧
    MainJs.validateField "name" "Name" "   " = (false, some "Name is required") ∧
    MainJs.validateField "phone" "Phone" "   " = (true, none) := by
  refine ⟨c9_trimmed_validation.1 "name" "Name" " Jane Doe ", ?_, ?_⟩
  · simpa using c9_trimmed_validation.2 "name" "Name" "   " _ rfl (by decide)
  · simpa using c9_trimmed_validation.2 "phone" "Phone" "   " _ rfl (by decide)

/-- Claim C4: single-field validation matches the rules table on the spec's
concrete inputs — `name="A"` fails with the minimum-length message while
`name="Jane Doe"` passes; `email="x"` fails the pattern while
`email="a@b.co"` passes; a 5-character message fails (minimum 10) while a
10-character message passes. -/
theorem c4_concrete_validation :
    MainJs.validateField "name" "Name" "A" = (false, some "Must be at least 2 characters") ∧
    MainJs.validateField "name" "Name" "Jane Doe" = (true, none) ∧
    MainJs.validateField "email" "Email" "x" =
      (false, some "Please enter a valid email address") ∧
    MainJs.validateField "email" "Email" "a@b.co" = (true, none) ∧
    MainJs.validateField "message" "Message" "abcde" =
      (false, some "Must be at least 10 characters") ∧
    MainJs.validateField "message" "Message" "abcdefghij" = (true, none) := by
  decide

/-- `validateField` either passes or displays an inline error. -/
theorem validateField_false_msg (n l v : String) :
    (MainJs.validateField n l v).1 = true ∨
    ∃ m, MainJs.validateField n l v = (false, some m) := by
  unfold MainJs.validateField
  cases MainJs.VALIDATION_RULES n with
  | none => left; rfl
  | some rules =>
    dsimp only
    split
    · right; exact ⟨_, rfl⟩
    · split
      · left; rfl
      · cases MainJs.checkMinLength rules (trimJs v.data) with
        | some m => right; exact ⟨m, rfl⟩
        | none =>
          cases MainJs.checkPattern rules (trimJs v.data) with
          | some m => right; exact ⟨m, rfl⟩
          | none => left; rfl

/-- Counterexample to claim C3 as stated: `phone` has an entry in the
validation-rules table and the value `"abc?def"` violates its pattern, yet
submitting a form whose required fields are valid displays no error, passes
overall form validation, and starts the simulated call — `validateForm`
only validates controls carrying the `required` attribute, which `phone`
lacks. -/
theorem c3_counterexample :
    (MainJs.validateField "phone" "Phone" "abc?def").1 = false ∧
    MainJs.validateForm phoneBadForm = true ∧
    MainJs.handleFormSubmitGate phoneBadForm = (true, []) := by
  decide

/-- Claim C3 (amended): for every field carrying the `required` attribute
(name, email, message), a value violating that field's rule makes the field
validation fail, displays its inline error among the submit errors, makes
overall form validation fail, and aborts submission, so no simulated call
starts. -/
theorem c3_required_field_violation (form : List MainJs.Field) (f : MainJs.Field)
    (hf : f ∈ form) (hreq : f.requiredAttr = true)
    (hviol : (MainJs.validateFieldF f).1 = false) :
    MainJs.validateForm form = false ∧
    (MainJs.handleFormSubmitGate form).1 = false ∧
    ∃ m, (MainJs.validateFieldF f).2 = some m ∧
         (f.name, m) ∈ (MainJs.handleFormSubmitGate form).2 := by
  have hmem : f ∈ form.filter (·.requiredAttr) := List.mem_filter.mpr ⟨hf, by simp [hreq]⟩
  have hvf : MainJs.validateForm form = false := by
    unfold MainJs.validateForm
    rw [List.all_eq_false]
    exact ⟨f, hmem, by simp [hviol]⟩
  obtain ⟨m, hm⟩ : ∃ m, MainJs.validateFieldF f = (false, some m) := by
    rcases validateField_false_msg f.name f.label f.value with h | ⟨m, hm⟩
    · exact absurd (hviol.symm.trans h) (by simp)
    · exact ⟨m, hm⟩
  refine ⟨hvf, ?_, m, by rw [hm], ?_⟩
  · unfold MainJs.handleFormSubmitGate
    rw [hvf]
    rfl
  · unfold MainJs.handleFormSubmitGate
    rw [hvf]
    simp only [Bool.false_eq_true, if_false]
    unfold MainJs.submitErrors
    exact List.mem_filterMap.mpr ⟨f, hmem, by rw [hm]; rfl⟩

/-- Witness for C3 (amended): a form whose name is the single letter `"A"`
fails validation and submission is aborted, with the min-length error shown
for the name field. -/
theorem c3_required_field_violation_witness :
    MainJs.validateForm badNameForm = false ∧
    (MainJs.handleFormSubmitGate badNameForm).1 = false ∧
    ∃ m, (MainJs.validateFieldF ⟨"name", "A", "Name", true⟩).2 = some m ∧
         ("name", m) ∈ (MainJs.handleFormSubmitGate badNameForm).2 :=
  c3_required_field_violation badNameForm ⟨"name", "A", "Name", true⟩
    (by decide) rfl (by decide)

/-- Claim C8: clicking an in-page anchor whose fragment names an id missing
from the document only logs a warning — default is prevented but no scroll
is requested, the URL fragment is not updated, and focus is not moved. -/
theorem c8_missing_target (doc : List (String × Int)) (h : String)
    (hpre : MainJs.startsWithHash h = true)
    (habs : ∀ p ∈ doc, p.1 ≠ MainJs.fragmentOf h) :
    MainJs.handleSmoothScroll doc (some h) =
      { prevented := true, scrolledTo := none, urlPushed := none,
        focused := none, warnedMissing := true } := by
  unfold MainJs.handleSmoothScroll
  have hfind : doc.find? (fun p => p.1 == MainJs.fragmentOf h) = none := by
    rw [List.find?_eq_none]
    intro p hp
    simp [habs p hp]
  simp [hpre, hfind]

/-- Witness for C8: clicking `#missing` in a document with ids `about` and
`courses` is a warn-only no-op. -/
theorem c8_missing_target_witness :
    MainJs.handleSmoothScroll [("about", 400), ("courses", 900)] (some "#missing") =
      { prevented := true, scrolledTo := none, urlPushed := none,
        focused := none, warnedMissing := true } :=
  c8_missing_target [("about", 400), ("courses", 900)] "#missing" (by decide) (by decide)

/-- An untouched `js/animations.js` reveal state stays untouched under any
event. -/
theorem astep_untouched (s : Animations.AnimSt) (e : MainJs.AEv)
    (h : Animations.Untouched s) : Animations.Untouched (Animations.astep s e) := by
  obtain ⟨h1, h2, h3, h4⟩ := h
  cases e with
  | notify t e₀ inter =>
    unfold Animations.astep
    by_cases ht : t < s.now
    · simp only [ht, if_true]; exact ⟨h1, h2, h3, h4⟩
    · have hc : s.observed.contains e₀ = false := by rw [h2]; rfl
      simp only [ht, if_false, hc, Bool.and_false, Bool.false_and, Bool.false_eq_true]
      exact ⟨h1, h2, h3, h4⟩
  | fire t e₀ =>
    unfold Animations.astep
    by_cases ht : t < s.now
    · simp only [ht, if_true]; exact ⟨h1, h2, h3, h4⟩
    · have hf : s.timers.find? (fun p => p.2 == e₀ && decide (p.1 ≤ t)) = none := by
        rw [h4]; rfl
      simp only [ht, if_false, hf]
      exact ⟨h1, h2, h3, h4⟩

/-- An untouched `js/main.js` reveal state stays untouched under any
event. -/
theorem mastep_untouched (s : MainJs.MAnimSt) (e : MainJs.AEv)
    (h : MainJs.MUntouched s) : MainJs.MUntouched (MainJs.mastep s e) := by
  obtain ⟨h1, h2, h3, h4⟩ := h
  cases e with
  | notify t e₀ inter =>
    unfold MainJs.mastep
    by_cases ht : t < s.now
    · simp only [ht, if_true]; exact ⟨h1, h2, h3, h4⟩
    · have hc : s.observed.contains e₀ = false := by rw [h2]; rfl
      simp only [ht, if_false, hc, Bool.and_false, Bool.false_eq_true]
      exact ⟨h1, h2, h3, h4⟩
  | fire t e₀ =>
    unfold MainJs.mastep
    by_cases ht : t < s.now
    · simp only [ht, if_true]; exact ⟨h1, h2, h3, h4⟩
    · have hf : s.timers.find? (fun p => p.2 == e₀ && decide (p.1 ≤ t)) = none := by
        rw [h4]; rfl
      simp only [ht, if_false, hf]
      exact ⟨h1, h2, h3, h4⟩

/-- Untouchedness of both reveal machines is preserved by whole event
traces. -/
theorem foldl_untouched (es : List MainJs.AEv) :
    (∀ s : Animations.AnimSt, Animations.Untouched s →
        Animations.Untouched (es.foldl Animations.astep s)) ∧
    (∀ s : MainJs.MAnimSt, MainJs.MUntouched s →
        MainJs.MUntouched (es.foldl MainJs.mastep s)) := by
  induction es with
  | nil => exact ⟨fun s h => h, fun s h => h⟩
  | cons e es ih =>
    refine ⟨fun s h => ?_, fun s h => ?_⟩
    · exact ih.1 _ (astep_untouched s e h)
    · exact ih.2 _ (mastep_untouched s e h)

/-- Claim C7: when the reduced-motion preference or the page-level
no-animation marker is active at initialisation, both reveal
implementations do nothing: no element is given a hidden initial state or
observed, and no element is ever revealed, whatever intersection
notifications and timer firings follow. -/
theorem c7_reduced_motion_noop (noAnim reduced : Bool)
    (hdis : MainJs.shouldDisableAnimations noAnim reduced = true)
    (n m : Nat) (es fs : List MainJs.AEv) :
    (Animations.arun noAnim reduced n es).prepared = [] ∧
    (Animations.arun noAnim reduced n es).revealed = [] ∧
    (Animations.arun noAnim reduced n es).observed = [] ∧
    (MainJs.marun noAnim reduced m fs).hidden = [] ∧
    (MainJs.marun noAnim reduced m fs).revealed = [] ∧
    (MainJs.marun noAnim reduced m fs).observed = [] := by
  have hi : Animations.Untouched (Animations.initAnim noAnim reduced n) := by
    unfold Animations.initAnim
    rw [hdis]
    exact ⟨rfl, rfl, rfl, rfl⟩
  have hj : MainJs.MUntouched (MainJs.minitScroll noAnim reduced m) := by
    unfold MainJs.minitScroll
    rw [hdis]
    exact ⟨rfl, rfl, rfl, rfl⟩
  have ha := (foldl_untouched es).1 _ hi
  have hb := (foldl_untouched fs).2 _ hj
  exact ⟨ha.1, ha.2.2.1, ha.2.1, hb.1, hb.2.2.1, hb.2.1⟩

/-- Witness for C7: with the `data-no-animations` marker set, after an
intersection notification and a timer event for element 0 nothing is
hidden, observed or revealed in either implementation. -/
theorem c7_reduced_motion_noop_witness :
    (Animations.arun true false 3 [.notify 0 0 true, .fire 0 0]).prepared = [] ∧
    (Animations.arun true false 3 [.notify 0 0 true, .fire 0 0]).revealed = [] ∧
    (Animations.arun true false 3 [.notify 0 0 true, .fire 0 0]).observed = [] ∧
    (MainJs.marun true false 3 [.notify 0 0 true, .fire 0 0]).hidden = [] ∧
    (MainJs.marun true false 3 [.notify 0 0 true, .fire 0 0]).revealed = [] ∧
    (MainJs.marun true false 3 [.notify 0 0 true, .fire 0 0]).observed = [] :=
  c7_reduced_motion_noop true false (by decide) 3 3
    [.notify 0 0 true, .fire 0 0] [.notify 0 0 true, .fire 0 0]

/-- Claim C6 (code evaluation at the failing input): in the `js/main.js`
reveal handler, a single observed element (group index 0, stagger delay 0)
that is notified as intersecting at time 0 and whose reveal timer fires is
revealed — yet it is still in the observed set afterwards, because
`entry.target.observer?.unobserve?.(element)` reads an undefined `observer`
property and therefore never unobserves, contradicting the code's own
`Unobserve after animation` comment and the claim. -/
theorem c6_still_observed_after_reveal :
    (MainJs.marun false false 1 [.notify 0 0 true, .fire 0 0]).revealed = [0] ∧
    (MainJs.marun false false 1 [.notify 0 0 true, .fire 0 0]).observed = [0] := by
  decide

/-- Every step of the `js/interactions.js` machine preserves its
invariant. -/
theorem inv_step (s : Interactions.FSM) (h : Interactions.Inv s) (e : Interactions.Ev) :
    Interactions.Inv (Interactions.step s e) := by
  obtain ⟨⟨btn, cst, orig, sto⟩, ⟨pend, nid⟩, sub, flt, cnt⟩ := s
  obtain ⟨h1, h2, h3⟩ := h
  cases e with
  | submit =>
    cases sub with
    | true => exact ⟨h1, h2, h3⟩
    | false =>
      cases cst with
      | loading => exact ⟨h1, h2, h3⟩
      | idle =>
        cases sto with
        | none => exact ⟨rfl, rfl, h3⟩
        | some j =>
          obtain ⟨hp, hn, hor⟩ := h3
          subst hp
          exact ⟨rfl, rfl, by show [j].erase j = []; rw [List.erase_cons_head]⟩
      | success =>
        cases sto with
        | none => exact ⟨rfl, rfl, h3⟩
        | some j =>
          obtain ⟨hp, hn, hor⟩ := h3
          subst hp
          exact ⟨rfl, rfl, by show [j].erase j = []; rw [List.erase_cons_head]⟩
      | error =>
        cases sto with
        | none => exact ⟨rfl, rfl, h3⟩
        | some j =>
          obtain ⟨hp, hn, hor⟩ := h3
          subst hp
          exact ⟨rfl, rfl, by show [j].erase j = []; rw [List.erase_cons_head]⟩
  | resolveOk =>
    cases flt with
    | false => exact ⟨h1, h2, h3⟩
    | true =>
      cases cst with
      | idle => exact Bool.noConfusion (show true = false from h2)
      | success => exact Bool.noConfusion (show true = false from h2)
      | error => exact Bool.noConfusion (show true = false from h2)
      | loading =>
        cases sto with
        | none =>
          have hp : pend = [] := h3
          subst hp
          exact ⟨rfl, rfl, rfl, Nat.lt_succ_self nid, Or.inl rfl⟩
        | some j =>
          obtain ⟨hp, hn, hor⟩ := h3
          rcases hor with h' | h'
          · exact Interactions.BState.noConfusion
              (show Interactions.BState.loading = Interactions.BState.success from h')
          · exact Interactions.BState.noConfusion
              (show Interactions.BState.loading = Interactions.BState.error from h')
  | resolveFail =>
    cases flt with
    | false => exact ⟨h1, h2, h3⟩
    | true =>
      cases cst with
      | idle => exact Bool.noConfusion (show true = false from h2)
      | success => exact Bool.noConfusion (show true = false from h2)
      | error => exact Bool.noConfusion (show true = false from h2)
      | loading =>
        cases sto with
        | none =>
          have hp : pend = [] := h3
          subst hp
          exact ⟨rfl, rfl, rfl, Nat.lt_succ_self nid, Or.inr rfl⟩
        | some j =>
          obtain ⟨hp, hn, hor⟩ := h3
          rcases hor with h' | h'
          · exact Interactions.BState.noConfusion
              (show Interactions.BState.loading = Interactions.BState.success from h')
          · exact Interactions.BState.noConfusion
              (show Interactions.BState.loading = Interactions.BState.error from h')
  | fireTimer id =>
    cases sto with
    | none =>
      have hp : pend = [] := h3
      subst hp
      exact ⟨h1, h2, rfl⟩
    | some j =>
      obtain ⟨hp, hn, hor⟩ := h3
      subst hp
      by_cases hij : id ∈ [j]
      · have hj : id = j := by simpa using hij
        subst hj
        simp only [Interactions.step]
        rw [if_pos hij]
        rcases hor with rfl | rfl
        · refine ⟨h1, h2, ?_⟩
          show ([id].erase id).erase id = []
          rw [List.erase_cons_head]
          rfl
        · refine ⟨h1, h2, ?_⟩
          show ([id].erase id).erase id = []
          rw [List.erase_cons_head]
          rfl
      · simp only [Interactions.step]
        rw [if_neg hij]
        exact ⟨h1, h2, rfl, hn, hor⟩

/-- Every step of the `js/interactions.js` machine moves the button along
the implemented transition diagram, and increments the simulated-call
counter only on a transition into loading from a non-loading state. -/
theorem c1_step_edges (s : Interactions.FSM) (h : Interactions.Inv s) (e : Interactions.Ev) :
    Interactions.codeEdge s.mgr.currentState (Interactions.step s e).mgr.currentState = true ∧
    ((Interactions.step s e).calls ≠ s.calls →
      s.mgr.currentState ≠ Interactions.BState.loading ∧
      (Interactions.step s e).mgr.currentState = Interactions.BState.loading ∧
      (Interactions.step s e).calls = s.calls + 1) := by
  obtain ⟨⟨btn, cst, orig, sto⟩, ⟨pend, nid⟩, sub, flt, cnt⟩ := s
  obtain ⟨h1, h2, h3⟩ := h
  cases e with
  | submit =>
    cases sub with
    | true => exact ⟨by cases cst <;> rfl, fun hc => absurd rfl hc⟩
    | false =>
      cases cst with
      | loading => exact ⟨rfl, fun hc => absurd rfl hc⟩
      | idle =>
        cases sto with
        | none =>
          exact ⟨rfl, fun _ => ⟨fun hcon => Interactions.BState.noConfusion
            (show Interactions.BState.idle = Interactions.BState.loading from hcon), rfl, rfl⟩⟩
        | some j =>
          exact ⟨rfl, fun _ => ⟨fun hcon => Interactions.BState.noConfusion
            (show Interactions.BState.idle = Interactions.BState.loading from hcon), rfl, rfl⟩⟩
      | success =>
        cases sto with
        | none =>
          exact ⟨rfl, fun _ => ⟨fun hcon => Interactions.BState.noConfusion
            (show Interactions.BState.success = Interactions.BState.loading from hcon), rfl, rfl⟩⟩
        | some j =>
          exact ⟨rfl, fun _ => ⟨fun hcon => Interactions.BState.noConfusion
            (show Interactions.BState.success = Interactions.BState.loading from hcon), rfl, rfl⟩⟩
      | error =>
        cases sto with
        | none =>
          exact ⟨rfl, fun _ => ⟨fun hcon => Interactions.BState.noConfusion
            (show Interactions.BState.error = Interactions.BState.loading from hcon), rfl, rfl⟩⟩
        | some j =>
          exact ⟨rfl, fun _ => ⟨fun hcon => Interactions.BState.noConfusion
            (show Interactions.BState.error = Interactions.BState.loading from hcon), rfl, rfl⟩⟩
  | resolveOk =>
    cases flt with
    | false => exact ⟨by cases cst <;> rfl, fun hc => absurd rfl hc⟩
    | true =>
      cases cst with
      | idle => exact Bool.noConfusion (show true = false from h2)
      | success => exact Bool.noConfusion (show true = false from h2)
      | error => exact Bool.noConfusion (show true = false from h2)
      | loading =>
        cases sto with
        | none => exact ⟨rfl, fun hc => absurd rfl hc⟩
        | some j =>
          obtain ⟨hp, hn, hor⟩ := h3
          rcases hor with h' | h'
          · exact Interactions.BState.noConfusion
              (show Interactions.BState.loading = Interactions.BState.success from h')
          · exact Interactions.BState.noConfusion
              (show Interactions.BState.loading = Interactions.BState.error from h')
  | resolveFail =>
    cases flt with
    | false => exact ⟨by cases cst <;> rfl, fun hc => absurd rfl hc⟩
    | true =>
      cases cst with
      | idle => exact Bool.noConfusion (show true = false from h2)
      | success => exact Bool.noConfusion (show true = false from h2)
      | error => exact Bool.noConfusion (show true = false from h2)
      | loading =>
        cases sto with
        | none => exact ⟨rfl, fun hc => absurd rfl hc⟩
        | some j =>
          obtain ⟨hp, hn, hor⟩ := h3
          rcases hor with h' | h'
          · exact Interactions.BState.noConfusion
              (show Interactions.BState.loading = Interactions.BState.success from h')
          · exact Interactions.BState.noConfusion
              (show Interactions.BState.loading = Interactions.BState.error from h')
  | fireTimer id =>
    cases sto with
    | none =>
      have hp : pend = [] := h3
      subst hp
      exact ⟨by cases cst <;> rfl, fun hc => absurd rfl hc⟩
    | some j =>
      obtain ⟨hp, hn, hor⟩ := h3
      subst hp
      by_cases hij : id ∈ [j]
      · have hj : id = j := by simpa using hij
        subst hj
        simp only [Interactions.step]
        rw [if_pos hij]
        rcases hor with rfl | rfl
        · exact ⟨rfl, fun hc => absurd rfl hc⟩
        · exact ⟨rfl, fun hc => absurd rfl hc⟩
      · simp only [Interactions.step]
        rw [if_neg hij]
        exact ⟨by cases cst <;> rfl, fun hc => absurd rfl hc⟩

/-- The freshly initialised `js/interactions.js` machine satisfies the
invariant. -/
theorem inv_init (b : Interactions.Button) : Interactions.Inv (Interactions.initFSM b) :=
  ⟨rfl, rfl, rfl⟩

/-- Every reachable state of the `js/interactions.js` machine satisfies the
invariant. -/
theorem inv_run (b : Interactions.Button) (es : List Interactions.Ev) :
    Interactions.Inv (Interactions.run b es) := by
  suffices hgen : ∀ s, Interactions.Inv s → Interactions.Inv (es.foldl Interactions.step s) by
    exact hgen _ (inv_init b)
  induction es with
  | nil => exact fun s h => h
  | cons e es ih => exact fun s h => ih _ (inv_step s h e)

/-- Counterexample to claim C1 as stated: after a failed submission the
button manager is in the error state (the code re-enables the button there
with a retry affordance), and a submit event delivered in that state starts
a new simulated call and moves the button straight to loading — a
transition outside the spec's diagram, and a submission starting while the
current state is not idle. -/
theorem c1_counterexample :
    (Interactions.run exButton [.submit, .resolveFail]).mgr.currentState =
      Interactions.BState.error ∧
    (Interactions.run exButton [.submit, .resolveFail, .submit]).mgr.currentState =
      Interactions.BState.loading ∧
    (Interactions.run exButton [.submit, .resolveFail, .submit]).calls =
      (Interactions.run exButton [.submit, .resolveFail]).calls + 1 ∧
    Interactions.specEdge Interactions.BState.error Interactions.BState.loading = false := by
  decide

/-- Claim C1 (amended): in every reachable execution the button follows
`idle --submit--> loading --resolve--> success | error --timeout--> idle`,
plus the retry edges `success/error --submit--> loading`; a submission
enters loading exactly once per accepted submit (the call counter moves
only on a non-loading-to-loading transition, by one), resolution leaves
loading to exactly one of success or error, and a new submission may start
exactly when no submission is in flight — from idle, success, or error,
never from loading. -/
theorem c1_button_state_machine (b : Interactions.Button) (es : List Interactions.Ev)
    (e : Interactions.Ev) :
    Interactions.codeEdge (Interactions.run b es).mgr.currentState
      (Interactions.step (Interactions.run b es) e).mgr.currentState = true ∧
    ((Interactions.step (Interactions.run b es) e).calls ≠ (Interactions.run b es).calls →
      (Interactions.run b es).mgr.currentState ≠ Interactions.BState.loading ∧
      (Interactions.step (Interactions.run b es) e).mgr.currentState =
        Interactions.BState.loading ∧
      (Interactions.step (Interactions.run b es) e).calls =
        (Interactions.run b es).calls + 1) :=
  c1_step_edges _ (inv_run b es) e

/-- Witness for C1 (amended) on the first submit from idle. -/
theorem c1_button_state_machine_witness :
    Interactions.codeEdge (Interactions.run exButton []).mgr.currentState
      (Interactions.step (Interactions.run exButton []) .submit).mgr.currentState = true ∧
    ((Interactions.step (Interactions.run exButton []) .submit).calls ≠
        (Interactions.run exButton []).calls →
      (Interactions.run exButton []).mgr.currentState ≠ Interactions.BState.loading ∧
      (Interactions.step (Interactions.run exButton []) .submit).mgr.currentState =
        Interactions.BState.loading ∧
      (Interactions.step (Interactions.run exButton []) .submit).calls =
        (Interactions.run exButton []).calls + 1) :=
  c1_button_state_machine exButton [] .submit

/-- Counterexample to claim C2 as stated: the `js/main.js` submit handler
has no re-entry guard, so with the button in the loading state a second
submit event on a form whose fields are valid starts a second simulated
call (the call counter reaches 2) even though the button stays loading. -/
theorem c2_counterexample :
    (MainJs.mrun validForm [.submit]).btn = MainJs.MBtn.loading ∧
    (MainJs.mrun validForm [.submit, .submit]).calls = 2 ∧
    (MainJs.mrun validForm [.submit, .submit]).btn = MainJs.MBtn.loading := by
  decide

/-- Claim C2 (amended): in the interactions module, a submit event
delivered while the button manager is loading is a complete no-op — the
machine state, including the simulated-call counter and the button, is
unchanged.  (The `js/main.js` handler lacks this guard; see the
counterexample.) -/
theorem c2_loading_submit_noop (s : Interactions.FSM)
    (h : Interactions.isLoading s.mgr = true) :
    Interactions.step s .submit = s := by
  unfold Interactions.step
  rw [h]
  simp

/-- Witness for C2 (amended): after an accepted submit the manager is
loading and a second submit event changes nothing. -/
theorem c2_loading_submit_noop_witness :
    Interactions.step (Interactions.run exButton [.submit]) .submit =
      Interactions.run exButton [.submit] :=
  c2_loading_submit_noop _ (by decide)

/-- Counterexample to claim C5 as stated: in `js/main.js`, a success
transition schedules a reset timer that nothing cancels; a new submission
then enters loading with the old timer still pending, and when the stale
timer fires it reverts the button to default while the second simulated
call is still in flight. -/
theorem c5_counterexample :
    (MainJs.mrun validForm [.submit, .resolveOk, .submit]).btn = MainJs.MBtn.loading ∧
    (MainJs.mrun validForm [.submit, .resolveOk, .submit]).pendingTimers = [0] ∧
    (MainJs.mrun validForm [.submit, .resolveOk, .submit, .fireTimer 0]).btn =
      MainJs.MBtn.default ∧
    (MainJs.mrun validForm [.submit, .resolveOk, .submit, .fireTimer 0]).inFlight = 1 := by
  decide

/-- Claim C5 (amended): in the interactions module's `ButtonStateManager`,
`setState` cancels any pending state-display timer before applying the new
state, so in every reachable state every still-pending timer is exactly the
one recorded by the current state's own transition (which is a success or
error display) — a stale timeout from an earlier transition can never fire
and revert a newer state.  The `js/main.js` `setButtonState` performs no
such cancellation and its stale timer can revert a newer state; see the
counterexample. -/
theorem c5_timer_cancellation (b : Interactions.Button) (es : List Interactions.Ev)
    (id : Nat) (h : id ∈ (Interactions.run b es).timers.pending) :
    (Interactions.run b es).mgr.stateTimeout = some id ∧
    ((Interactions.run b es).mgr.currentState = Interactions.BState.success ∨
     (Interactions.run b es).mgr.currentState = Interactions.BState.error) := by
  obtain ⟨-, -, h3⟩ := inv_run b es
  cases hm : (Interactions.run b es).mgr.stateTimeout with
  | none =>
    rw [hm] at h3
    rw [show (Interactions.run b es).timers.pending = [] from h3] at h
    cases h
  | some j =>
    rw [hm] at h3
    obtain ⟨hp, hn, hor⟩ := h3
    rw [hp] at h
    have hj : id = j := by simpa using h
    subst hj
    exact ⟨rfl, hor⟩

/-- Witness for C5 (amended): after a successful submission the single
pending timer is the one recorded for the success display. -/
theorem c5_timer_cancellation_witness :
    (Interactions.run exButton [.submit, .resolveOk]).mgr.stateTimeout = some 0 ∧
    ((Interactions.run exButton [.submit, .resolveOk]).mgr.currentState =
        Interactions.BState.success ∨
     (Interactions.run exButton [.submit, .resolveOk]).mgr.currentState =
        Interactions.BState.error) :=
  c5_timer_cancellation exButton [.submit, .resolveOk] 0 (by decide)

/-- Claim C10: for every state `s` in `{loading, success, error}`, setting
the freshly constructed manager to `s` and back to idle restores the inner
content captured at construction, re-enables the button, and clears
`aria-busy`. -/
theorem c10_idle_round_trip (b : Interactions.Button)
    (hb : b.dataOriginalContent = none) (st : Interactions.BState)
    (hst : st = Interactions.BState.loading ∨ st = Interactions.BState.success ∨
           st = Interactions.BState.error) :
    (Interactions.afterRoundTrip b st).button.innerHTML = b.innerHTML ∧
    (Interactions.afterRoundTrip b st).button.disabled = false ∧
    (Interactions.afterRoundTrip b st).button.ariaBusy = false := by
  rcases hst with rfl | rfl | rfl <;>
    simp [Interactions.afterRoundTrip, Interactions.mkManager, Interactions.setState,
      Interactions.clearPendingTimeout, Interactions.setIdleState, Interactions.setLoadingState,
      Interactions.setSuccessState, Interactions.setErrorState, Interactions.addClass,
      Interactions.removeStateClasses, Interactions.BState.cls, hb]

/-- Witness for C10: the round trip through the success state on the
markup's submit button restores `"Send Message"`, enabled and not busy. -/
theorem c10_idle_round_trip_witness :
    (Interactions.afterRoundTrip exButton Interactions.BState.success).button.innerHTML =
      exButton.innerHTML ∧
    (Interactions.afterRoundTrip exButton Interactions.BState.success).button.disabled = false ∧
    (Interactions.afterRoundTrip exButton Interactions.BState.success).button.ariaBusy = false :=
  c10_idle_round_trip exButton rfl Interactions.BState.success (Or.inr (Or.inl rfl))

end LandingPage

